import Mathlib

/-
Verification of scripts/generate-icons.py, a placeholder-icon generator.

The script builds square RGBA raster images (dark background, filled amber
ellipse), writes them as PNG files into a fixed icons directory, and prints
progress lines.  Library calls (PIL raster drawing, PNG serialization,
os.makedirs) are modelled explicitly; the logic of the script itself is translated
statement by statement.
-/

namespace Fireplace

/-- An RGBA color with 8-bit channels (values 0..255). -/
structure Color where
  r : Nat
  g : Nat
  b : Nat
  a : Nat
deriving DecidableEq

/-- The dark background color used by the script, `(9, 9, 11, 255)` (zinc-950). -/
def zinc950 : Color := ⟨9, 9, 11, 255⟩

/-- The accent fill color used by the script, `(245, 158, 11, 255)` (amber-500). -/
def amber500 : Color := ⟨245, 158, 11, 255⟩

/-- An in-memory raster image: width, height, and a pixel function giving the
color at coordinates `(x, y)`. -/
structure Img where
  width : Nat
  height : Nat
  pixel : Nat → Nat → Color

/-- `Image.new("RGBA", (size, size), c)`: a fresh `size × size` buffer with
every pixel set to `c`. -/
def imageNew (size : Nat) (c : Color) : Img :=
  { width := size, height := size, pixel := fun _ _ => c }

/-- Modelled from the spec: the rasterization rule of the PIL library call
`ImageDraw.Draw(img).ellipse([x0, y0, x1, y1], fill=...)`, whose C
implementation is not part of this repository.  The spec describes it as a
hard-edged filled ellipse inscribed in the bounding box `[x0, y0, x1, y1]`
(endpoints inclusive).  A pixel `(x, y)` is covered exactly when it lies in
the bounding box and inside the inscribed ellipse: with doubled coordinates to
keep the (possibly half-integer) center exact,
`(2x - (x0+x1))^2 * (y1-y0)^2 + (2y - (y0+y1))^2 * (x1-x0)^2 ≤ (x1-x0)^2 * (y1-y0)^2`. -/
def inEllipse (x0 y0 x1 y1 x y : Nat) : Bool :=
  let xi : Int := (x : Int)
  let yi : Int := (y : Int)
  let dx : Int := 2 * xi - ((x0 : Int) + (x1 : Int))
  let dy : Int := 2 * yi - ((y0 : Int) + (y1 : Int))
  let a : Int := (x1 : Int) - (x0 : Int)
  let b : Int := (y1 : Int) - (y0 : Int)
  decide (x0 ≤ x) && decide (x ≤ x1) && decide (y0 ≤ y) && decide (y ≤ y1) &&
    decide (dx ^ 2 * b ^ 2 + dy ^ 2 * a ^ 2 ≤ a ^ 2 * b ^ 2)

/-- `draw.ellipse([x0, y0, x1, y1], fill)`: overwrite every covered pixel with
`fill`, leave the rest of the buffer unchanged. -/
def drawEllipse (img : Img) (x0 y0 x1 y1 : Nat) (fill : Color) : Img :=
  { img with
    pixel := fun x y =>
      if inEllipse x0 y0 x1 y1 x y then fill else img.pixel x y }

/-- The image built by `create_icon(size, _)` (generate-icons.py lines 17-25):
a `size × size` RGBA buffer filled with `(9, 9, 11, 255)`, then a filled
ellipse of color `(245, 158, 11, 255)` drawn in the box
`[margin, margin, size - margin, size - margin]` with `margin = size // 4`. -/
def create_icon_img (size : Nat) : Img :=
  let img := imageNew size zinc950
  let margin := size / 4
  drawEllipse img margin margin (size - margin) (size - margin) amber500

/-- Observable actions of the script: printing a line, running the package
installer, creating a directory tree, and saving an image as PNG.  PNG is a
lossless format, so the content of the saved file is fully determined by (and here
represented as) the image itself. -/
inductive Event where
  | printLine (s : String)
  | install (cmd : String)
  | mkdirs (path : String)
  | savePNG (path : String) (img : Img)

/-- `create_icon(size, filepath)` (generate-icons.py lines 14-28): build the
image, save it as PNG at `filepath`, print a confirmation line. -/
def create_icon (size : Nat) (filepath : String) : List Event :=
  [Event.savePNG filepath (create_icon_img size),
   Event.printLine ("Created " ++ filepath)]

/-- `os.path.join(a, b)` for a non-empty directory prefix without a trailing
separator: concatenation with `/`. -/
def pathJoin (a b : String) : String := a ++ "/" ++ b

/-- The icons directory the script resolves (generate-icons.py line 31):
`os.path.join(os.path.dirname(__file__), "..", "src-tauri", "icons")`,
as a path string relative to the directory holding the script. -/
def icons_dir (scriptDir : String) : String :=
  pathJoin (pathJoin (pathJoin scriptDir "..") "src-tauri") "icons"

/-- `main()` (generate-icons.py lines 30-41), parameterized by the resolved
icons output directory `d`: make the directory tree, create the four icons,
print the completion and advisory lines. -/
def main_events (d : String) : List Event :=
  Event.mkdirs d ::
    (create_icon 32 (pathJoin d "32x32.png") ++
     create_icon 128 (pathJoin d "128x128.png") ++
     create_icon 256 (pathJoin d "128x128@2x.png") ++
     create_icon 256 (pathJoin d "icon.png") ++
     [Event.printLine "Icon generation complete!",
      Event.printLine "Note: icon.icns and icon.ico are placeholders. Use proper icon generation for production."])

/-- The PNG files written during a trace, as (path, image) pairs in order. -/
def filesWritten (es : List Event) : List (String × Img) :=
  es.filterMap fun e =>
    match e with
    | Event.savePNG p i => some (p, i)
    | _ => none

/-- The lines printed during a trace, in order. -/
def printed (es : List Event) : List String :=
  es.filterMap fun e =>
    match e with
    | Event.printLine s => some s
    | _ => none

/-- The installer commands run during a trace, in order. -/
def installCmds (es : List Event) : List String :=
  es.filterMap fun e =>
    match e with
    | Event.install c => some c
    | _ => none

/-- The bytes of one pixel in RGBA channel order. -/
def colorBytes (c : Color) : List Nat := [c.r, c.g, c.b, c.a]

/-- Modelled from the spec: PNG serialization is lossless and deterministic
(no timestamps, no randomness), so the byte stream of a saved file is a
function of the image alone; it is represented by the dimensions followed by
the row-major pixel data. -/
def pngBytes (img : Img) : List Nat :=
  img.width :: img.height ::
    ((List.range img.height).flatMap fun y =>
      (List.range img.width).flatMap fun x => colorBytes (img.pixel x y))

/-- Big-step behavior of one generator run with resolved icons directory `d`:
the script is a single linear sequence, so it relates `d` to exactly the
trace `main_events d`. -/
inductive RunsTo : String → List Event → Prop where
  | run (d : String) : RunsTo d (main_events d)

/-- Image described by the specification of `createIcon`: every pixel
initialized to the background color, then a filled accent-color ellipse
inscribed in `[margin, margin, size - margin, size - margin]` where
`margin = ⌊size / 4⌋`. -/
def specIconImage (size : Nat) : Img :=
  let margin := size / 4
  { width := size
    height := size
    pixel := fun x y =>
      if inEllipse margin margin (size - margin) (size - margin) x y then
        amber500
      else zinc950 }

/-- Execution environment for the import fallback (generate-icons.py
lines 7-12): whether `from PIL import ...` succeeds initially, whether it
succeeds after the pip install attempt, the exit status `os.system` returns
for the install command (returned to the script, which discards it), and the
interpreter path `sys.executable`. -/
structure PyEnv where
  pillowInstalled : Bool
  pillowAfterInstall : Bool
  pipExitCode : Nat
  pythonExe : String

/-- The fixed part of the install command after the interpreter path
(generate-icons.py line 11). -/
def pipArgs : String := " -m pip install --quiet Pillow"

/-- The full install command the script passes to `os.system`: the
interpreter path `sys.executable` followed by `pipArgs`. -/
def pipCommand (exe : String) : String := exe ++ pipArgs

/-- The import fallback (generate-icons.py lines 7-12): try the import; on
failure print a notice, run pip, and retry the import.  Returns the events so
far and whether the drawing capability is available afterwards. -/
def ensureDependency (env : PyEnv) : List Event × Bool :=
  if env.pillowInstalled then ([], true)
  else
    ([Event.printLine "PIL (Pillow) not found. Installing...",
      Event.install (pipCommand env.pythonExe)],
     env.pillowAfterInstall)

/-- A whole run of the script: the dependency fallback, then `main()` if the
dependency is available.  Returns the trace and the process exit status: 0 on
success, 1 (the Python status for an unhandled exception) when the second
load attempt fails. -/
def run_script (env : PyEnv) (d : String) : List Event × Nat :=
  let r := ensureDependency env
  if r.2 then (r.1 ++ main_events d, 0) else (r.1, 1)

/-- A directory path as its list of components. -/
abbrev DirPath := List String

/-- All directories `os.makedirs` must ensure for target `p`: the non-empty
prefixes of `p` (each intermediate directory and `p` itself). -/
def dirsToMake (p : DirPath) : List DirPath :=
  (List.range p.length).map fun i => p.take (i + 1)

/-- Modelled from the spec: `os.makedirs(p, exist_ok=ok)` (Python standard
library, not part of this repository).  It creates every missing intermediate
directory of `p`; with `exist_ok=False` it raises `FileExistsError` when `p`
already exists, with `exist_ok=True` it never raises.  The filesystem is a
list of existing directories. -/
def makedirs (p : DirPath) (exist_ok : Bool) (fs : List DirPath) :
    Except String (List DirPath) :=
  if !exist_ok && decide (p ∈ fs) then Except.error "FileExistsError"
  else Except.ok (dirsToMake p ++ fs)

/-- `main()` together with its filesystem effect on directories: run
`os.makedirs(icons_dir, exist_ok=True)` on the directory list `fs`, then
produce the written files.  `d` is the resolved icons directory. -/
def main_fs (d : DirPath) (fs : List DirPath) :
    Except String (List DirPath × List (String × Img)) :=
  match makedirs d true fs with
  | Except.error e => Except.error e
  | Except.ok fs2 =>
      Except.ok (fs2, filesWritten (main_events (String.intercalate "/" d)))

/-! ## Helper lemmas -/

/-- The four PNG files a run of `main()` writes, in order. -/
theorem filesWritten_main (d : String) :
    filesWritten (main_events d) =
      [(pathJoin d "32x32.png", create_icon_img 32),
       (pathJoin d "128x128.png", create_icon_img 128),
       (pathJoin d "128x128@2x.png", create_icon_img 256),
       (pathJoin d "icon.png", create_icon_img 256)] := rfl

/-- `main()` never invokes the package installer. -/
theorem installCmds_main (d : String) : installCmds (main_events d) = [] := rfl

/-- The pixel function of the generated image, written out. -/
theorem create_icon_img_pixel (size x y : Nat) :
    (create_icon_img size).pixel x y =
      (if inEllipse (size / 4) (size / 4) (size - size / 4) (size - size / 4)
          x y then amber500 else zinc950) := rfl

/-- Every pixel of a generated image is one of the two fixed colors and is
fully opaque. -/
theorem create_icon_img_pixel_cases (size x y : Nat) :
    ((create_icon_img size).pixel x y = zinc950 ∨
      (create_icon_img size).pixel x y = amber500) ∧
    ((create_icon_img size).pixel x y).a = 255 := by
  rw [create_icon_img_pixel]
  split
  · exact ⟨Or.inr rfl, rfl⟩
  · exact ⟨Or.inl rfl, rfl⟩

/-- Center pixel of one generated icon, stated at a concrete size. -/
theorem center_pixel_at (s : Nat) :
    (create_icon_img s).pixel ((create_icon_img s).width / 2)
      ((create_icon_img s).height / 2) =
      (create_icon_img s).pixel (s / 2) (s / 2) := rfl

/-- Center pixel of the 32×32 icon. -/
theorem center_pixel_32 :
    (create_icon_img 32).pixel ((create_icon_img 32).width / 2)
      ((create_icon_img 32).height / 2) = amber500 := by
  rw [center_pixel_at]; decide

/-- Center pixel of the 128×128 icon. -/
theorem center_pixel_128 :
    (create_icon_img 128).pixel ((create_icon_img 128).width / 2)
      ((create_icon_img 128).height / 2) = amber500 := by
  rw [center_pixel_at]; decide

/-- Center pixel of the 256×256 icon. -/
theorem center_pixel_256 :
    (create_icon_img 256).pixel ((create_icon_img 256).width / 2)
      ((create_icon_img 256).height / 2) = amber500 := by
  rw [center_pixel_at]; decide

/-- Corner pixels of one generated icon, stated at a concrete size. -/
theorem corner_pixels_at (s : Nat) :
    ((create_icon_img s).pixel 0 0 = zinc950 ∧
     (create_icon_img s).pixel ((create_icon_img s).width - 1) 0 = zinc950 ∧
     (create_icon_img s).pixel 0 ((create_icon_img s).height - 1) = zinc950 ∧
     (create_icon_img s).pixel ((create_icon_img s).width - 1)
        ((create_icon_img s).height - 1) = zinc950) ↔
    ((create_icon_img s).pixel 0 0 = zinc950 ∧
     (create_icon_img s).pixel (s - 1) 0 = zinc950 ∧
     (create_icon_img s).pixel 0 (s - 1) = zinc950 ∧
     (create_icon_img s).pixel (s - 1) (s - 1) = zinc950) := Iff.rfl

/-- Corner pixels of the 32×32 icon. -/
theorem corner_pixels_32 :
    (create_icon_img 32).pixel 0 0 = zinc950 ∧
    (create_icon_img 32).pixel ((create_icon_img 32).width - 1) 0 = zinc950 ∧
    (create_icon_img 32).pixel 0 ((create_icon_img 32).height - 1) =
        zinc950 ∧
    (create_icon_img 32).pixel ((create_icon_img 32).width - 1)
        ((create_icon_img 32).height - 1) = zinc950 := by
  rw [corner_pixels_at]; decide

/-- Corner pixels of the 128×128 icon. -/
theorem corner_pixels_128 :
    (create_icon_img 128).pixel 0 0 = zinc950 ∧
    (create_icon_img 128).pixel ((create_icon_img 128).width - 1) 0 =
        zinc950 ∧
    (create_icon_img 128).pixel 0 ((create_icon_img 128).height - 1) =
        zinc950 ∧
    (create_icon_img 128).pixel ((create_icon_img 128).width - 1)
        ((create_icon_img 128).height - 1) = zinc950 := by
  rw [corner_pixels_at]; decide

/-- Corner pixels of the 256×256 icon. -/
theorem corner_pixels_256 :
    (create_icon_img 256).pixel 0 0 = zinc950 ∧
    (create_icon_img 256).pixel ((create_icon_img 256).width - 1) 0 =
        zinc950 ∧
    (create_icon_img 256).pixel 0 ((create_icon_img 256).height - 1) =
        zinc950 ∧
    (create_icon_img 256).pixel ((create_icon_img 256).width - 1)
        ((create_icon_img 256).height - 1) = zinc950 := by
  rw [corner_pixels_at]; decide

/-! ## Claim theorems -/

/-- C1: for every positive size and every path, `create_icon(size, filepath)`
builds a `size × size` RGBA raster whose pixels are the background color
`(9, 9, 11, 255)` except where the filled ellipse of color
`(245, 158, 11, 255)` inscribed in `[margin, margin, size - margin,
size - margin]` (with `margin = ⌊size / 4⌋`) covers them, saves exactly that
buffer losslessly as PNG at `filepath`, and prints a confirmation line. -/
theorem create_icon_meets_spec (size : Nat) (filepath : String)
    (_h : 0 < size) :
    create_icon size filepath =
      [Event.savePNG filepath (specIconImage size),
       Event.printLine ("Created " ++ filepath)] ∧
    (specIconImage size).width = size ∧ (specIconImage size).height = size :=
  ⟨rfl, rfl, rfl⟩

/-- Witness for C1 at size 32. -/
theorem create_icon_meets_spec_witness :
    0 < 32 ∧
    (create_icon 32 "32x32.png" =
      [Event.savePNG "32x32.png" (specIconImage 32),
       Event.printLine ("Created " ++ "32x32.png")] ∧
    (specIconImage 32).width = 32 ∧ (specIconImage 32).height = 32) :=
  ⟨by decide, create_icon_meets_spec 32 "32x32.png" (by decide)⟩

/-- C2: a run of `main()` invokes `create_icon` exactly four times, with the
hard-coded (size, filename) pairs 32/32x32.png, 128/128x128.png,
256/128x128@2x.png and 256/icon.png joined onto the icons directory, in that
order and for no other pairs (each invocation writes exactly one file, whose
image width is the requested size). -/
theorem main_invokes_create_icon_four_times (d : String) :
    (filesWritten (main_events d)).map (fun f => (f.2.width, f.1)) =
      [(32, pathJoin d "32x32.png"), (128, pathJoin d "128x128.png"),
       (256, pathJoin d "128x128@2x.png"), (256, pathJoin d "icon.png")] ∧
    (filesWritten (main_events d)).length = 4 := ⟨rfl, rfl⟩

/-- C3: with the resolved output directory `out/icons`, the run produces
exactly the four files `out/icons/32x32.png` (32×32), `out/icons/128x128.png`
(128×128), `out/icons/128x128@2x.png` (256×256) and `out/icons/icon.png`
(256×256), and prints four Created lines followed by the completion line and
the advisory line naming icon.icns and icon.ico as placeholders. -/
theorem main_out_scenario :
    (filesWritten (main_events "out/icons")).map
        (fun f => (f.1, f.2.width, f.2.height)) =
      [("out/icons/32x32.png", 32, 32), ("out/icons/128x128.png", 128, 128),
       ("out/icons/128x128@2x.png", 256, 256),
       ("out/icons/icon.png", 256, 256)] ∧
    printed (main_events "out/icons") =
      ["Created out/icons/32x32.png", "Created out/icons/128x128.png",
       "Created out/icons/128x128@2x.png", "Created out/icons/icon.png",
       "Icon generation complete!",
       "Note: icon.icns and icon.ico are placeholders. Use proper icon generation for production."] :=
  ⟨rfl, rfl⟩

/-- C4: the generator is deterministic: any two runs over the same resolved
directory write the same files with byte-for-byte identical contents (the
serialized bytes are a function of the image; no randomness, no
timestamps). -/
theorem generator_deterministic (d : String) (es1 es2 : List Event)
    (h1 : RunsTo d es1) (h2 : RunsTo d es2) :
    (filesWritten es1).map (fun f => (f.1, pngBytes f.2)) =
      (filesWritten es2).map (fun f => (f.1, pngBytes f.2)) := by
  cases h1; cases h2; rfl

/-- Witness for C4 on two runs over the directory `icons`. -/
theorem generator_deterministic_witness :
    (filesWritten (main_events "icons")).map (fun f => (f.1, pngBytes f.2)) =
      (filesWritten (main_events "icons")).map
        (fun f => (f.1, pngBytes f.2)) :=
  generator_deterministic "icons" (main_events "icons") (main_events "icons")
    (RunsTo.run "icons") (RunsTo.run "icons")

/-- C5: in every file a run of `main()` writes, the center pixel at
`(width / 2, height / 2)` is exactly the accent color
`(245, 158, 11, 255)`. -/
theorem center_pixel_accent (d : String) (f : String × Img)
    (hf : f ∈ filesWritten (main_events d)) :
    f.2.pixel (f.2.width / 2) (f.2.height / 2) = amber500 := by
  rw [filesWritten_main] at hf
  simp only [List.mem_cons, List.not_mem_nil, or_false] at hf
  rcases hf with rfl | rfl | rfl | rfl
  · exact center_pixel_32
  · exact center_pixel_128
  · exact center_pixel_256
  · exact center_pixel_256

/-- Witness for C5 on the 32×32 icon. -/
theorem center_pixel_accent_witness :
    (pathJoin "icons" "32x32.png", create_icon_img 32) ∈
        filesWritten (main_events "icons") ∧
    (create_icon_img 32).pixel ((create_icon_img 32).width / 2)
        ((create_icon_img 32).height / 2) = amber500 :=
  ⟨by rw [filesWritten_main]; exact List.mem_cons_self _ _,
   center_pixel_accent "icons" (pathJoin "icons" "32x32.png",
      create_icon_img 32)
    (by rw [filesWritten_main]; exact List.mem_cons_self _ _)⟩

/-- C6: in every file a run of `main()` writes, the four corner pixels
`(0,0)`, `(width-1,0)`, `(0,height-1)` and `(width-1,height-1)` are exactly
the background color `(9, 9, 11, 255)`. -/
theorem corner_pixels_background (d : String) (f : String × Img)
    (hf : f ∈ filesWritten (main_events d)) :
    f.2.pixel 0 0 = zinc950 ∧
    f.2.pixel (f.2.width - 1) 0 = zinc950 ∧
    f.2.pixel 0 (f.2.height - 1) = zinc950 ∧
    f.2.pixel (f.2.width - 1) (f.2.height - 1) = zinc950 := by
  rw [filesWritten_main] at hf
  simp only [List.mem_cons, List.not_mem_nil, or_false] at hf
  rcases hf with rfl | rfl | rfl | rfl
  · exact corner_pixels_32
  · exact corner_pixels_128
  · exact corner_pixels_256
  · exact corner_pixels_256

/-- Witness for C6 on the 32×32 icon. -/
theorem corner_pixels_background_witness :
    (pathJoin "icons" "32x32.png", create_icon_img 32) ∈
        filesWritten (main_events "icons") ∧
    ((create_icon_img 32).pixel 0 0 = zinc950 ∧
     (create_icon_img 32).pixel ((create_icon_img 32).width - 1) 0 = zinc950 ∧
     (create_icon_img 32).pixel 0 ((create_icon_img 32).height - 1) =
        zinc950 ∧
     (create_icon_img 32).pixel ((create_icon_img 32).width - 1)
        ((create_icon_img 32).height - 1) = zinc950) :=
  ⟨by rw [filesWritten_main]; exact List.mem_cons_self _ _,
   corner_pixels_background "icons" (pathJoin "icons" "32x32.png",
      create_icon_img 32)
    (by rw [filesWritten_main]; exact List.mem_cons_self _ _)⟩

/-- C9: every pixel of every file a run of `main()` writes is exactly one of
the two colors background `(9, 9, 11, 255)` or accent `(245, 158, 11, 255)`,
with alpha 255 everywhere: the ellipse is hard-edged, with no blended
intermediate colors. -/
theorem only_two_colors (d : String) (f : String × Img)
    (hf : f ∈ filesWritten (main_events d)) (x y : Nat) :
    (f.2.pixel x y = zinc950 ∨ f.2.pixel x y = amber500) ∧
    (f.2.pixel x y).a = 255 := by
  rw [filesWritten_main] at hf
  simp only [List.mem_cons, List.not_mem_nil, or_false] at hf
  rcases hf with rfl | rfl | rfl | rfl
  · exact create_icon_img_pixel_cases 32 x y
  · exact create_icon_img_pixel_cases 128 x y
  · exact create_icon_img_pixel_cases 256 x y
  · exact create_icon_img_pixel_cases 256 x y

/-- Witness for C9 on pixel (0, 0) of the 32×32 icon. -/
theorem only_two_colors_witness :
    (pathJoin "icons" "32x32.png", create_icon_img 32) ∈
        filesWritten (main_events "icons") ∧
    (((create_icon_img 32).pixel 0 0 = zinc950 ∨
      (create_icon_img 32).pixel 0 0 = amber500) ∧
     ((create_icon_img 32).pixel 0 0).a = 255) :=
  ⟨by rw [filesWritten_main]; exact List.mem_cons_self _ _,
   only_two_colors "icons" (pathJoin "icons" "32x32.png", create_icon_img 32)
    (by rw [filesWritten_main]; exact List.mem_cons_self _ _) 0 0⟩

/-- C7: if the drawing capability is unavailable at startup, the script runs
exactly one install command (which passes `--quiet` to pip) and retries the
load; the run then exits 0 exactly when the retry succeeds and with the
non-zero status 1 exactly when it fails; when the capability is available at
startup no install is attempted and the run exits 0. -/
theorem import_fallback_behavior (env : PyEnv) (d : String) :
    (env.pillowInstalled = true →
        installCmds (run_script env d).1 = [] ∧ (run_script env d).2 = 0) ∧
    (env.pillowInstalled = false →
        installCmds (run_script env d).1 = [pipCommand env.pythonExe] ∧
        (∃ s t, pipArgs = s ++ "--quiet" ++ t) ∧
        ((run_script env d).2 = 0 ↔ env.pillowAfterInstall = true) ∧
        ((run_script env d).2 = 1 ↔ env.pillowAfterInstall = false)) := by
  obtain ⟨pi, pa, pec, pe⟩ := env
  constructor
  · intro h
    subst h
    exact ⟨rfl, rfl⟩
  · intro h
    subst h
    cases pa <;>
      exact ⟨rfl, ⟨" -m pip install ", " Pillow", rfl⟩,
        by simp [run_script, ensureDependency],
        by simp [run_script, ensureDependency]⟩

/-- Witness for C7: with Pillow missing but installable, one quiet pip
command runs and the process exits 0. -/
theorem import_fallback_behavior_witness :
    installCmds (run_script ⟨false, true, 0, "python3"⟩ "icons").1 =
        [pipCommand "python3"] ∧
    (run_script ⟨false, true, 0, "python3"⟩ "icons").2 = 0 :=
  ⟨((import_fallback_behavior ⟨false, true, 0, "python3"⟩ "icons").2 rfl).1,
   ((import_fallback_behavior ⟨false, true, 0, "python3"⟩
      "icons").2 rfl).2.2.1.mpr rfl⟩

/-- C10: the exit status of the install command is ignored: two environments
that agree on everything except the pip exit status produce identical runs,
and a run fails (status 1) exactly when the initial load failed and the
reload after the install attempt failed too. -/
theorem pip_status_ignored (env1 env2 : PyEnv) (d : String)
    (h1 : env1.pillowInstalled = env2.pillowInstalled)
    (h2 : env1.pillowAfterInstall = env2.pillowAfterInstall)
    (h3 : env1.pythonExe = env2.pythonExe) :
    run_script env1 d = run_script env2 d ∧
    ((run_script env1 d).2 = 1 ↔
      (env1.pillowInstalled = false ∧ env1.pillowAfterInstall = false)) := by
  obtain ⟨pi1, pa1, pec1, pe1⟩ := env1
  obtain ⟨pi2, pa2, pec2, pe2⟩ := env2
  simp only at h1 h2 h3
  subst h1; subst h2; subst h3
  refine ⟨rfl, ?_⟩
  cases pi1 <;> cases pa1 <;> simp [run_script, ensureDependency]

/-- Witness for C10: two environments differing only in the pip exit status
give identical runs. -/
theorem pip_status_ignored_witness :
    run_script ⟨false, false, 0, "python3"⟩ "icons" =
        run_script ⟨false, false, 7, "python3"⟩ "icons" ∧
    ((run_script ⟨false, false, 0, "python3"⟩ "icons").2 = 1 ↔
      ((false : Bool) = false ∧ (false : Bool) = false)) :=
  pip_status_ignored ⟨false, false, 0, "python3"⟩ ⟨false, false, 7, "python3"⟩
    "icons" rfl rfl rfl

/-- C8: `os.makedirs(d, exist_ok=True)` always succeeds (in particular it
raises no error when `d` already exists), creates every intermediate
directory of `d`, keeps every directory that already existed, is idempotent
on the set of directories, and the files a run of `main()` writes do not
depend on the initial state of the filesystem. -/
theorem outdir_creation_idempotent (d : DirPath) (fs : List DirPath) :
    makedirs d true fs = Except.ok (dirsToMake d ++ fs) ∧
    (∀ q ∈ dirsToMake d, q ∈ dirsToMake d ++ fs) ∧
    (∀ q ∈ fs, q ∈ dirsToMake d ++ fs) ∧
    (d ≠ [] → d ∈ dirsToMake d ++ fs) ∧
    (∀ q : DirPath,
      q ∈ dirsToMake d ++ (dirsToMake d ++ fs) ↔ q ∈ dirsToMake d ++ fs) ∧
    (∀ fs2 : List DirPath,
      (main_fs d fs).map (fun r => r.2) = (main_fs d fs2).map fun r => r.2) := by
  refine ⟨rfl, ?_, ?_, ?_, ?_, ?_⟩
  · intro q hq
    exact List.mem_append_left _ hq
  · intro q hq
    exact List.mem_append_right _ hq
  · intro hd
    apply List.mem_append_left
    have hlen : 0 < d.length := List.length_pos.mpr hd
    refine List.mem_map.mpr ⟨d.length - 1, List.mem_range.mpr ?_, ?_⟩
    · omega
    · rw [Nat.sub_add_cancel hlen, List.take_length]
  · intro q
    simp only [List.mem_append]
    tauto
  · intro fs2
    rfl

/-- Witness for C8 on directory out/icons over the empty filesystem. -/
theorem outdir_creation_idempotent_witness :
    makedirs ["out", "icons"] true [] =
        Except.ok (dirsToMake ["out", "icons"] ++ []) ∧
    ["out", "icons"] ∈ dirsToMake ["out", "icons"] ++ ([] : List DirPath) :=
  ⟨(outdir_creation_idempotent ["out", "icons"] []).1,
   (outdir_creation_idempotent ["out", "icons"] []).2.2.2.1 (by decide)⟩

end Fireplace
